import Mathlib

/-!
Verification of the timecard computation core and approval workflow.

The definitions below are a shallow embedding of the JavaScript source:
`timeToMinutes`, `minutesToTimeString`, `calculateBreakTime`,
`calculateWorkTime`, `calculateOvertime`, `calculateNightOvertime`,
`calculateLateTime`, `calculateEarlyLeaveTime`, `calculateMonthlySummary`,
`getPatternFromSettings`, `getDaysInMonth`, `generateCSV` and the
approval module (`requestApproval`, `approve`, `reject`, `isMonthEditable`).
Nullable JS values are `Option`, JS numbers appearing in minute arithmetic
are `Int`, and JS strings are Lean `String` (manipulated through their
character lists).  Persistence is modelled by passing the affected row
explicitly: each store operation becomes a pure function from the current
row state to a `(result, new row state)` pair.
-/

/-- Numeric value of an ASCII digit character (models the digit handling
inside the JS `Number(...)` conversion). -/
def digitVal (c : Char) : Nat := c.toNat - 48

/-- Decimal value of a list of ASCII digit characters, most significant
first.  `decArabic []` is `0`, matching JS `Number("") = 0`. -/
def decArabic (l : List Char) : Nat :=
  l.foldl (fun a c => a * 10 + digitVal c) 0

/-- Models the JS `Number(s)` conversion on the fragment the timecard code
exercises: the empty string gives 0, and a string of decimal digits gives
its value.  (Non-digit strings, which JS would turn into `NaN`, are outside
the fragment exercised by the program's time strings.) -/
def jsNumber (l : List Char) : Int := (decArabic l : Int)

/-- Fuel-indexed decimal rendering of a natural number; the fuel only
bounds the recursion depth (any fuel above the input is enough). -/
def natToCharsAux : Nat → Nat → List Char
  | 0, _ => []
  | fuel + 1, n =>
    if n < 10 then [Nat.digitChar n]
    else natToCharsAux fuel (n / 10) ++ [Nat.digitChar (n % 10)]

/-- Decimal rendering of a natural number as characters (models the JS
number-to-string conversion `` `${n}` ``/`String(n)` for non-negative
integers). -/
def natToChars (n : Nat) : List Char := natToCharsAux (n + 1) n

/-- Models JS `String(n)` for a natural number. -/
def jsStrNat (n : Nat) : String := String.mk (natToChars n)

/-- Models JS string conversion of a (possibly negative) integer. -/
def jsStrInt (i : Int) : String :=
  if i < 0 then String.mk ('-' :: natToChars (-i).toNat)
  else jsStrNat i.toNat

/-- Models JS `s.padStart(2, '0')` on the character list of `s`. -/
def padStart2 (l : List Char) : List Char :=
  if l.length < 2 then List.replicate (2 - l.length) '0' ++ l else l

/-- Models JS `s.split(c)` on the character list of `s`. -/
def splitOnChar (c : Char) : List Char → List (List Char)
  | [] => [[]]
  | x :: xs =>
    let rest := splitOnChar c xs
    if x = c then [] :: rest
    else
      match rest with
      | [] => [[x]]
      | y :: ys => (x :: y) :: ys

/-- JS truthiness of a nullable string: `null`/`undefined` and the empty
string are falsy, every other string is truthy. -/
def truthyStr (v : Option String) : Bool :=
  match v with
  | none => false
  | some s => decide (s ≠ "")

/-- JS truthiness of a nullable number: `null`/`undefined` and `0` are
falsy. -/
def truthyInt (v : Option Int) : Bool :=
  match v with
  | none => false
  | some n => decide (n ≠ 0)

/-- Source `timeToMinutes(timeStr)`: 0 for a falsy input, otherwise split
on `:` and combine `hours * 60 + minutes`. -/
def timeToMinutes (timeStr : Option String) : Int :=
  match timeStr with
  | none => 0
  | some s =>
    if s = "" then 0
    else
      let parts := splitOnChar ':' s.data
      jsNumber (parts.getD 0 []) * 60 + jsNumber (parts.getD 1 [])

/-- Source `minutesToTimeString(minutes)`: clamps negatives to 0, then
renders `H:MM` (hours unpadded, minutes zero-padded to two digits). -/
def minutesToTimeString (minutes : Int) : String :=
  let m := if minutes < 0 then 0 else minutes
  let hours := m / 60
  let mins := m % 60
  String.mk (natToChars hours.toNat ++ ':' :: padStart2 (natToChars mins.toNat))

/-- A work pattern as consumed by the calculation functions: shift bounds
and up to three break intervals, all nullable strings. -/
structure WorkPattern where
  start : Option String
  «end» : Option String
  break1_start : Option String
  break1_end : Option String
  break2_start : Option String
  break2_end : Option String
  break3_start : Option String
  break3_end : Option String
deriving DecidableEq

/-- The three `(break{i}_start, break{i}_end)` pairs the source loop
`for i = 1..3` reads. -/
def breakPairs (p : WorkPattern) : List (Option String × Option String) :=
  [(p.break1_start, p.break1_end), (p.break2_start, p.break2_end),
   (p.break3_start, p.break3_end)]

/-- Source `calculateBreakTime(pattern)`: accumulate `end − start` over the
break pairs whose two ends are both truthy. -/
def calculateBreakTime (pattern : WorkPattern) : Int :=
  (breakPairs pattern).foldl
    (fun totalBreak pr =>
      if truthyStr pr.1 = true ∧ truthyStr pr.2 = true then
        totalBreak + (timeToMinutes pr.2 - timeToMinutes pr.1)
      else totalBreak) 0

/-- Source `calculateWorkTime(startTime, endTime, pattern)`: 0 when either
clock time is falsy, otherwise `end − start − breaks` (not clamped). -/
def calculateWorkTime (startTime endTime : Option String)
    (pattern : WorkPattern) : Int :=
  if truthyStr startTime = false ∨ truthyStr endTime = false then 0
  else timeToMinutes endTime - timeToMinutes startTime -
    calculateBreakTime pattern

/-- The 5-way overtime split returned by `calculateOvertime`. -/
structure Overtime where
  total : Int
  normal : Int
  night : Int
  legalHoliday : Int
  extraHoliday : Int
deriving DecidableEq

/-- Source `calculateOvertime(workTime, standardHours, workType)`: on a
holiday work type the whole worked span is overtime routed to the matching
holiday bucket; otherwise `max(0, workTime − standardHours*60)` routed to
`normal`. -/
def calculateOvertime (workTime standardHours : Int)
    (workType : String) : Overtime :=
  let standardMinutes := standardHours * 60
  if workType = "legal-holiday" ∨ workType = "extra-holiday" then
    { total := workTime
      normal := 0
      night := 0
      legalHoliday := if workType = "legal-holiday" then workTime else 0
      extraHoliday := if workType = "extra-holiday" then workTime else 0 }
  else
    let overtime := max 0 (workTime - standardMinutes)
    { total := overtime, normal := overtime, night := 0,
      legalHoliday := 0, extraHoliday := 0 }

/-- Source `calculateNightOvertime(startTime, endTime, standardHours)`:
minutes of the shift falling after 22:00 or before 05:00, floored at 0;
0 when either clock time is falsy.  (`standardHours` is accepted and
ignored, as in the source.) -/
def calculateNightOvertime (startTime endTime : Option String)
    (standardHours : Int) : Int :=
  if truthyStr startTime = false ∨ truthyStr endTime = false then 0
  else
    let startMinutes := timeToMinutes startTime
    let endMinutes := timeToMinutes endTime
    let nightStartM := 22 * 60
    let morningEnd := 5 * 60
    let afterNight :=
      if endMinutes > nightStartM then
        min endMinutes (24 * 60) - max startMinutes nightStartM
      else 0
    let beforeMorning :=
      if startMinutes < morningEnd then
        min endMinutes morningEnd - startMinutes
      else 0
    max 0 (afterNight + beforeMorning)

/-- Source `calculateLateTime(actualStart, scheduledStart)`. -/
def calculateLateTime (actualStart scheduledStart : Option String) : Int :=
  if truthyStr actualStart = false ∨ truthyStr scheduledStart = false then 0
  else max 0 (timeToMinutes actualStart - timeToMinutes scheduledStart)

/-- Source `calculateEarlyLeaveTime(actualEnd, scheduledEnd)`. -/
def calculateEarlyLeaveTime (actualEnd scheduledEnd : Option String) : Int :=
  if truthyStr actualEnd = false ∨ truthyStr scheduledEnd = false then 0
  else max 0 (timeToMinutes scheduledEnd - timeToMinutes actualEnd)

/-- One raw `pattern{n}_*` block of a monthly-settings row (all fields
nullable, as stored). -/
structure RawPattern where
  start : Option String
  «end» : Option String
  break1_start : Option String
  break1_end : Option String
  break2_start : Option String
  break2_end : Option String
  break3_start : Option String
  break3_end : Option String
deriving DecidableEq

/-- A raw pattern block with every field absent (what the dynamic
`settings[`pattern${n}_...`]` lookup yields for an out-of-range index). -/
def RawPattern.empty : RawPattern :=
  { start := none, «end» := none, break1_start := none, break1_end := none,
    break2_start := none, break2_end := none,
    break3_start := none, break3_end := none }

/-- A `monthly_settings` row: `standard_hours` plus the three pattern
blocks (the source addresses them through `pattern${n}_` field-name
templating; the embedding stores them as three named blocks). -/
structure MonthlySettings where
  standard_hours : Option Int
  pattern1 : RawPattern
  pattern2 : RawPattern
  pattern3 : RawPattern
deriving DecidableEq

/-- JS `v || d` on a nullable string (falsy `v`, i.e. null or empty,
falls back to `d`). -/
def jsOrStr (v : Option String) (d : String) : String :=
  match v with
  | none => d
  | some s => if s = "" then d else s

/-- JS `v || d` on a nullable number (falsy `v`, i.e. null or 0, falls
back to `d`). -/
def jsOrNat (v : Option Nat) (d : Nat) : Nat :=
  match v with
  | none => d
  | some n => if n = 0 then d else n

/-- Source `getPatternFromSettings(settings, patternNumber)`: hard-coded
default pattern when settings are absent; otherwise the requested block
with `start`/`end` falling back to 09:00/18:00 and breaks kept as-is. -/
def getPatternFromSettings (settings : Option MonthlySettings)
    (patternNumber : Nat) : WorkPattern :=
  match settings with
  | none =>
    { start := some ("09:00"), «end» := some ("18:00"),
      break1_start := some ("12:00"), break1_end := some ("13:00"),
      break2_start := none, break2_end := none,
      break3_start := none, break3_end := none }
  | some s =>
    let raw :=
      match patternNumber with
      | 1 => s.pattern1
      | 2 => s.pattern2
      | 3 => s.pattern3
      | _ => RawPattern.empty
    { start := some (jsOrStr raw.start ("09:00")),
      «end» := some (jsOrStr raw.«end» ("18:00")),
      break1_start := raw.break1_start, break1_end := raw.break1_end,
      break2_start := raw.break2_start, break2_end := raw.break2_end,
      break3_start := raw.break3_start, break3_end := raw.break3_end }

/-- A `daily_records` row as the calculation and CSV code reads it.
`work_date_day` stands for `new Date(record.work_date).getDate()`, the
day-of-month extracted from the record's date. -/
structure DailyRecord where
  work_date_day : Nat
  work_type : Option String
  start_time : Option String
  end_time : Option String
  late_time : Option Int
  early_leave_time : Option Int
  overtime : Option Int
  night_overtime : Option Int
  leave_type : Option String
  work_pattern : Option Nat
  note : Option String
deriving DecidableEq

/-- A daily record with every field absent (the `{}` fallback used for a
day with no record). -/
def DailyRecord.empty : DailyRecord :=
  { work_date_day := 0, work_type := none, start_time := none,
    end_time := none, late_time := none, early_leave_time := none,
    overtime := none, night_overtime := none, leave_type := none,
    work_pattern := none, note := none }

/-- The monthly summary accumulator of `calculateMonthlySummary`. -/
structure MonthlySummary where
  workDays : Nat
  totalWorkMinutes : Int
  totalOvertime : Int
  nightOvertime : Int
  legalHolidayOvertime : Int
  extraHolidayOvertime : Int
deriving DecidableEq

/-- The all-zero summary the source initialises. -/
def MonthlySummary.init : MonthlySummary :=
  { workDays := 0, totalWorkMinutes := 0, totalOvertime := 0,
    nightOvertime := 0, legalHolidayOvertime := 0,
    extraHolidayOvertime := 0 }

/-- The work-day test of the summary loop:
`record.work_type && !['legal-holiday','extra-holiday'].includes(...)`
and both clock times truthy. -/
def countsAsWorkDay (record : DailyRecord) : Bool :=
  truthyStr record.work_type &&
  decide (record.work_type ≠ some ("legal-holiday")) &&
  decide (record.work_type ≠ some ("extra-holiday")) &&
  truthyStr record.start_time && truthyStr record.end_time

/-- One iteration of the `for (const record of records)` loop in
`calculateMonthlySummary`. -/
def summaryStep (settings : Option MonthlySettings)
    (summary : MonthlySummary) (record : DailyRecord) : MonthlySummary :=
  { workDays :=
      summary.workDays + (if countsAsWorkDay record then 1 else 0)
    totalWorkMinutes :=
      summary.totalWorkMinutes +
        (if truthyStr record.start_time = true ∧
            truthyStr record.end_time = true then
          calculateWorkTime record.start_time record.end_time
            (getPatternFromSettings settings (jsOrNat record.work_pattern 1))
        else 0)
    totalOvertime :=
      summary.totalOvertime +
        (if truthyInt record.overtime = true ∧
            record.work_type ≠ some ("legal-holiday") ∧
            record.work_type ≠ some ("extra-holiday") then
          record.overtime.getD 0
        else 0)
    nightOvertime :=
      summary.nightOvertime +
        (if truthyInt record.night_overtime = true then
          record.night_overtime.getD 0
        else 0)
    legalHolidayOvertime :=
      summary.legalHolidayOvertime +
        (if truthyInt record.overtime = true ∧
            record.work_type = some ("legal-holiday") then
          record.overtime.getD 0
        else 0)
    extraHolidayOvertime :=
      summary.extraHolidayOvertime +
        (if truthyInt record.overtime = true ∧
            record.work_type = some ("extra-holiday") then
          record.overtime.getD 0
        else 0) }

/-- Source `calculateMonthlySummary(records, settings)`: fold the loop
body over the records, starting from the all-zero summary.  (The source
also computes a `standardHours` local that the loop never reads.) -/
def calculateMonthlySummary (records : List DailyRecord)
    (settings : Option MonthlySettings) : MonthlySummary :=
  records.foldl (summaryStep settings) MonthlySummary.init

/-- Gregorian leap-year test. -/
def isLeapYear (year : Nat) : Bool :=
  (year % 4 = 0 && year % 100 ≠ 0) || year % 400 = 0

/-- Source `getDaysInMonth(year, month)`, i.e. the value of
`new Date(year, month, 0).getDate()`: the number of days of Gregorian
month `month` (1–12) of `year`. -/
def getDaysInMonth (year month : Nat) : Nat :=
  if month = 2 then
    if isLeapYear year then 29 else 28
  else if month = 4 ∨ month = 6 ∨ month = 9 ∨ month = 11 then 30
  else 31

/-- The weekday names array of `getDayOfWeek`. -/
def dayNames : List String := ["日", "月", "火", "水", "木", "金", "土"]

/-- Gregorian day-of-week (0 = Sunday), Sakamoto's congruence; models the
value of `new Date(year, month - 1, day).getDay()`. -/
def dayOfWeekIndex (year month day : Nat) : Nat :=
  let t := [0, 3, 2, 5, 0, 3, 5, 1, 4, 6, 2, 4]
  let y := if month < 3 then year - 1 else year
  (y + y / 4 + y / 400 + t.getD (month - 1) 0 + day - y / 100) % 7

/-- Source `getDayOfWeek(year, month, day)`. -/
def getDayOfWeek (year month day : Nat) : String :=
  dayNames.getD (dayOfWeekIndex year month day) ("")

/-- Source `getWorkTypeLabel(workType)`: the fixed label table, empty
string for an unknown or absent key. -/
def getWorkTypeLabel (workType : Option String) : String :=
  match workType with
  | none => ""
  | some s =>
    if s = "work" then ("出勤")
    else if s = "remote" then ("出勤（リモート）")
    else if s = "late" then ("遅刻")
    else if s = "early-leave" then ("早退")
    else if s = "late-early" then ("遅刻＋早退")
    else if s = "legal-holiday" then ("休日（法定）")
    else if s = "extra-holiday" then ("休日（法定外）")
    else ""

/-- Source `getLeaveTypeLabel(leaveType)`. -/
def getLeaveTypeLabel (leaveType : Option String) : String :=
  match leaveType with
  | none => ""
  | some s =>
    if s = "paid" then ("有休")
    else if s = "absent" then ("欠勤")
    else if s = "special" then ("特休")
    else if s = "congratulation" then ("慶弔")
    else ""

/-- The fixed 11-column CSV header of `generateCSV`. -/
def csvHeaders : List String :=
  ["日付", "曜日", "勤務種類", "出勤時刻", "退勤時刻",
   "遅刻時間", "早退時間", "残業時間", "深夜残業", "休暇種類", "補足"]

/-- Rendering of a nullable minute count as a CSV cell:
`` record.f ? `${record.f}分` : '' ``. -/
def minuteField (v : Option Int) : String :=
  match v with
  | none => ""
  | some n => if n = 0 then "" else jsStrInt n ++ "分"

/-- Doubling of internal double quotes, the effect of the source's
`.replace(/"/g, '""')`. -/
def doubleQuotes (s : String) : String :=
  String.mk (s.data.foldr
    (fun c acc => if c = '"' then '"' :: '"' :: acc else c :: acc) [])

/-- The always-quoted note cell: `` `"${(record.note || '').replace(...)}"` ``. -/
def noteField (note : Option String) : String :=
  "\"" ++ doubleQuotes (jsOrStr note ("")) ++ "\""

/-- The `recordMap[day]` lookup of `generateCSV`: the map is filled by
iterating over the records, a later record for the same day overwriting an
earlier one. -/
def recordForDay (records : List DailyRecord) (day : Nat) :
    Option DailyRecord :=
  records.foldl
    (fun acc r => if r.work_date_day = day then some r else acc) none

/-- One data row of `generateCSV` (already joined with commas). -/
def csvRow (year month day : Nat) (record : DailyRecord) : String :=
  String.intercalate (",")
    [jsStrNat year ++ "/" ++ jsStrNat month ++ "/" ++ jsStrNat day,
     getDayOfWeek year month day,
     getWorkTypeLabel record.work_type,
     jsOrStr record.start_time (""),
     jsOrStr record.end_time (""),
     minuteField record.late_time,
     minuteField record.early_leave_time,
     minuteField record.overtime,
     minuteField record.night_overtime,
     getLeaveTypeLabel record.leave_type,
     noteField record.note]

/-- The `rows` list of `generateCSV`: the joined header followed by one
row per day `1..daysInMonth`.  (`settings` is accepted and ignored, as in
the source.) -/
def generateCSVRows (records : List DailyRecord)
    (settings : Option MonthlySettings) (year month : Nat) : List String :=
  String.intercalate (",") csvHeaders ::
    (List.range' 1 (getDaysInMonth year month)).map
      (fun day =>
        csvRow year month day ((recordForDay records day).getD
          DailyRecord.empty))

/-- Source `generateCSV(records, settings, year, month)`:
`rows.join('\n')`. -/
def generateCSV (records : List DailyRecord)
    (settings : Option MonthlySettings) (year month : Nat) : String :=
  String.intercalate ("\n") (generateCSVRows records settings year month)

/-- An `approvals` row as the approval module reads and writes it. -/
structure ApprovalRow where
  status : String
  requested_at : Option String
  approved_by : Option String
  approved_at : Option String
  rejection_reason : Option String
  created_at : Option String
  updated_at : Option String
deriving DecidableEq

/-- The `{success, message}` result object the approval operations
return. -/
structure SaveResult where
  success : Bool
  message : String
deriving DecidableEq

/-- Source `requestApproval(userId, year, month)`, modelled as a pure
transition on the approval row of that (user, year, month): the read of
the existing row is the input, the row state after the write is the
output.  The storage collaborator is assumed to succeed (its error
branches merely propagate a failure result). -/
def requestApproval (existing : Option ApprovalRow) (now : String) :
    SaveResult × Option ApprovalRow :=
  match existing with
  | some row =>
    if row.status = "approved" then
      ({ success := false, message := "すでに承認されています" },
       some row)
    else
      ({ success := true, message := "承認申請を送信しました" },
       some { row with status := "pending", requested_at := some now,
                       updated_at := some now })
  | none =>
    ({ success := true, message := "承認申請を送信しました" },
     some { status := "pending", requested_at := some now,
            approved_by := none, approved_at := none,
            rejection_reason := none, created_at := some now,
            updated_at := some now })

/-- Source `approve(approvalId, approverId)`, modelled as a pure
transition on the row with that id: an unconditional update that sets
`status`, `approved_by`, `approved_at`, `updated_at`. -/
def approve (row : ApprovalRow) (approverId now : String) :
    SaveResult × ApprovalRow :=
  ({ success := true, message := "承認しました" },
   { row with status := "approved", approved_by := some approverId,
              approved_at := some now, updated_at := some now })

/-- Source `reject(approvalId, approverId, reason)`, modelled as a pure
transition on the row with that id: an unconditional update that sets
`status`, `approved_by`, `approved_at`, `rejection_reason`,
`updated_at`. -/
def reject (row : ApprovalRow) (approverId reason now : String) :
    SaveResult × ApprovalRow :=
  ({ success := true, message := "却下しました" },
   { row with status := "rejected", approved_by := some approverId,
              approved_at := some now, rejection_reason := some reason,
              updated_at := some now })

/-- Source `cancelApproval(approvalId, approverId)`: unconditional reset
to `draft`, clearing the approver metadata. -/
def cancelApproval (row : ApprovalRow) (now : String) :
    SaveResult × ApprovalRow :=
  ({ success := true, message := "承認を取り消しました" },
   { row with status := "draft", approved_by := none,
              approved_at := none, rejection_reason := none,
              updated_at := some now })

/-- Source `isMonthEditable(userId, year, month)`, modelled on the fetched
approval row: editable when no row exists or its status is not
`approved`. -/
def isMonthEditable (approval : Option ApprovalRow) : Bool :=
  match approval with
  | none => true
  | some a => decide (a.status ≠ "approved")

/-- A bare approval row in the given status (all other fields absent). -/
def approvalRowWithStatus (st : String) : ApprovalRow :=
  { status := st, requested_at := none, approved_by := none,
    approved_at := none, rejection_reason := none, created_at := none,
    updated_at := none }

/-- A daily record with both clock times present but no `work_type`
(allowed by the schema: `work_type` is nullable). -/
def recordWithoutWorkType : DailyRecord :=
  { DailyRecord.empty with
      start_time := some ("09:00"), end_time := some ("18:00") }

theorem timeToMinutes_nonneg (t : Option String) : 0 ≤ timeToMinutes t := by
  cases t with
  | none => simp [timeToMinutes]
  | some s =>
    simp only [timeToMinutes]
    split
    · exact le_refl 0
    · simp only [jsNumber]
      positivity

/-- Claim C1: `calculateOvertime` routes the whole worked span to the
matching holiday bucket on a holiday work type (normal 0), and otherwise
returns `max(0, workedMinutes − standardHours*60)` routed to `normal`;
the `night` component is 0 in every case. -/
theorem calculateOvertime_split (w h : Int) (wt : String) :
    (wt = "legal-holiday" →
      calculateOvertime w h wt =
        { total := w, normal := 0, night := 0, legalHoliday := w,
          extraHoliday := 0 }) ∧
    (wt = "extra-holiday" →
      calculateOvertime w h wt =
        { total := w, normal := 0, night := 0, legalHoliday := 0,
          extraHoliday := w }) ∧
    (wt ≠ "legal-holiday" → wt ≠ "extra-holiday" →
      calculateOvertime w h wt =
        { total := max 0 (w - h * 60), normal := max 0 (w - h * 60),
          night := 0, legalHoliday := 0, extraHoliday := 0 }) ∧
    (calculateOvertime w h wt).night = 0 := by
  refine ⟨?_, ?_, ?_, ?_⟩
  · intro hwt; subst hwt; simp [calculateOvertime]
  · intro hwt; subst hwt; simp [calculateOvertime]
  · intro h1 h2; simp [calculateOvertime, h1, h2]
  · by_cases h1 : wt = "legal-holiday" ∨ wt = "extra-holiday" <;>
      simp [calculateOvertime, h1]

theorem calculateOvertime_split_witness :
    calculateOvertime 600 8 ("work") =
      { total := 120, normal := 120, night := 0, legalHoliday := 0,
        extraHoliday := 0 } := by
  rw [(calculateOvertime_split 600 8 ("work")).2.2.1 (by decide) (by decide)]
  decide

/-- Claim C5: `isMonthEditable` is true iff no approval row exists or its
status differs from `approved`, and false exactly when the status is
`approved`. -/
theorem isMonthEditable_iff (approval : Option ApprovalRow) :
    (isMonthEditable approval = true ↔
      approval = none ∨ ∃ a, approval = some a ∧ a.status ≠ "approved") ∧
    (isMonthEditable approval = false ↔
      ∃ a, approval = some a ∧ a.status = "approved") := by
  cases approval with
  | none => simp [isMonthEditable]
  | some a => simp [isMonthEditable]

/-- Claim C4: requesting approval with no existing row creates a pending
row with `requested_at` set; requesting from `draft` or `rejected`
re-enters `pending`; requesting while `approved` returns a structured
failure and leaves the row unchanged. -/
theorem requestApproval_transitions (existing : Option ApprovalRow)
    (now : String) :
    (existing = none →
      (requestApproval existing now).1.success = true ∧
      ∃ row, (requestApproval existing now).2 = some row ∧
        row.status = "pending" ∧ row.requested_at = some now) ∧
    (∀ a, existing = some a →
      (a.status = "draft" ∨ a.status = "rejected") →
        (requestApproval existing now).1.success = true ∧
        ∃ row, (requestApproval existing now).2 = some row ∧
          row.status = "pending" ∧ row.requested_at = some now) ∧
    (∀ a, existing = some a → a.status = "approved" →
      (requestApproval existing now).1.success = false ∧
      (requestApproval existing now).2 = existing) := by
  refine ⟨?_, ?_, ?_⟩
  · intro hx; subst hx; simp [requestApproval]
  · intro a hx hst; subst hx
    have hne : ¬ a.status = "approved" := by
      rcases hst with h | h <;> simp [h]
    simp [requestApproval, hne]
  · intro a hx hst; subst hx; simp [requestApproval, hst]

theorem requestApproval_transitions_witness :
    (requestApproval none ("t0")).1.success = true ∧
    (requestApproval (some (approvalRowWithStatus ("rejected")))
      ("t0")).1.success = true ∧
    (requestApproval (some (approvalRowWithStatus ("approved")))
      ("t0")).1.success = false ∧
    (requestApproval (some (approvalRowWithStatus ("approved"))) ("t0")).2 =
      some (approvalRowWithStatus ("approved")) := by
  refine ⟨?_, ?_, ?_, ?_⟩
  · exact ((requestApproval_transitions none ("t0")).1 rfl).1
  · exact ((requestApproval_transitions
      (some (approvalRowWithStatus ("rejected"))) ("t0")).2.1 _ rfl
      (Or.inr rfl)).1
  · exact ((requestApproval_transitions
      (some (approvalRowWithStatus ("approved"))) ("t0")).2.2 _ rfl rfl).1
  · exact ((requestApproval_transitions
      (some (approvalRowWithStatus ("approved"))) ("t0")).2.2 _ rfl rfl).2

/-- Claim C6 fails on the code: `approve` and `reject` on a non-pending
approval succeed and change the row instead of returning a structured
failure.  Here both are applied to a `rejected` (hence non-pending) and a
`draft` row. -/
theorem approve_reject_unguarded_counterexample :
    (approve (approvalRowWithStatus ("draft")) ("boss") ("t1")).1.success
      = true ∧
    (approve (approvalRowWithStatus ("draft")) ("boss") ("t1")).2 ≠
      approvalRowWithStatus ("draft") ∧
    (approve (approvalRowWithStatus ("draft")) ("boss")
      ("t1")).2.status = "approved" ∧
    (reject (approvalRowWithStatus ("approved")) ("boss") ("bad")
      ("t1")).1.success = true ∧
    (reject (approvalRowWithStatus ("approved")) ("boss") ("bad")
      ("t1")).2.status = "rejected" := by
  refine ⟨rfl, ?_, rfl, rfl, rfl⟩
  decide

/-- Claim C6 amended: `approve` and `reject` apply their transition
unconditionally, whatever the current status: they report success and
overwrite `status` and the approver metadata even when the approval is not
pending (only request-on-approved is guarded in the code). -/
theorem approve_reject_unconditional (row : ApprovalRow)
    (approverId reason now : String) :
    (approve row approverId now).1.success = true ∧
    (approve row approverId now).2 =
      { row with status := "approved", approved_by := some approverId,
                 approved_at := some now, updated_at := some now } ∧
    (reject row approverId reason now).1.success = true ∧
    (reject row approverId reason now).2 =
      { row with status := "rejected", approved_by := some approverId,
                 approved_at := some now, rejection_reason := some reason,
                 updated_at := some now } := by
  exact ⟨rfl, rfl, rfl, rfl⟩

/-- Claim C8: the calculation pipeline is total on absent inputs:
`timeToMinutes` returns 0 on null/empty, and `calculateWorkTime`,
`calculateNightOvertime`, `calculateLateTime`, `calculateEarlyLeaveTime`
all return 0 when either clock-time argument is falsy. -/
theorem calculations_total_on_absent :
    timeToMinutes none = 0 ∧ timeToMinutes (some ("")) = 0 ∧
    ∀ (a b : Option String) (p : WorkPattern) (sh : Int),
      truthyStr a = false ∨ truthyStr b = false →
        calculateWorkTime a b p = 0 ∧
        calculateNightOvertime a b sh = 0 ∧
        calculateLateTime a b = 0 ∧
        calculateEarlyLeaveTime a b = 0 := by
  refine ⟨rfl, rfl, ?_⟩
  intro a b p sh habs
  refine ⟨?_, ?_, ?_, ?_⟩
  · rw [calculateWorkTime, if_pos habs]
  · rw [calculateNightOvertime, if_pos habs]
  · rw [calculateLateTime, if_pos habs]
  · rw [calculateEarlyLeaveTime, if_pos habs]

theorem calculations_total_on_absent_witness :
    (truthyStr none = false ∨ truthyStr (some ("18:00")) = false) ∧
    calculateWorkTime none (some ("18:00"))
      (getPatternFromSettings none 1) = 0 ∧
    calculateNightOvertime none (some ("18:00")) 8 = 0 ∧
    calculateLateTime none (some ("18:00")) = 0 ∧
    calculateEarlyLeaveTime none (some ("18:00")) = 0 := by
  refine ⟨Or.inl rfl, ?_⟩
  exact calculations_total_on_absent.2.2 none (some ("18:00"))
    (getPatternFromSettings none 1) 8 (Or.inl rfl)

/-- Claim C2: for present clock times with `start < end` within one
calendar day, the night overtime is the post-22:00 portion plus the
pre-05:00 portion, each floored at 0; it is 0 when either time is
absent. -/
theorem calculateNightOvertime_formula (s e : String) (sh : Int)
    (hs : s ≠ "") (he : e ≠ "")
    (hlt : timeToMinutes (some s) < timeToMinutes (some e))
    (hday : timeToMinutes (some e) ≤ 1440) :
    calculateNightOvertime (some s) (some e) sh =
      max 0 (min (timeToMinutes (some e)) 1440 -
        max (timeToMinutes (some s)) 1320) +
      max 0 (min (timeToMinutes (some e)) 300 - timeToMinutes (some s)) ∧
    (∀ a b : Option String, truthyStr a = false ∨ truthyStr b = false →
      calculateNightOvertime a b sh = 0) := by
  constructor
  · have h0 : 0 ≤ timeToMinutes (some s) := timeToMinutes_nonneg (some s)
    have hcond : ¬ (truthyStr (some s) = false ∨
        truthyStr (some e) = false) := by
      simp [truthyStr, hs, he]
    rw [calculateNightOvertime, if_neg hcond]
    simp only []
    split_ifs <;> omega
  · intro a b habs
    rw [calculateNightOvertime, if_pos habs]

theorem calculateNightOvertime_formula_witness :
    ("20:00" ≠ ("" : String)) ∧ ("23:00" ≠ ("" : String)) ∧
    timeToMinutes (some ("20:00")) < timeToMinutes (some ("23:00")) ∧
    timeToMinutes (some ("23:00")) ≤ 1440 ∧
    calculateNightOvertime (some ("20:00")) (some ("23:00")) 8 =
      max 0 (min (timeToMinutes (some ("23:00"))) 1440 -
        max (timeToMinutes (some ("20:00"))) 1320) +
      max 0 (min (timeToMinutes (some ("23:00"))) 300 -
        timeToMinutes (some ("20:00"))) ∧
    calculateNightOvertime (some ("20:00")) (some ("23:00")) 8 = 60 ∧
    calculateNightOvertime (some ("09:00")) (some ("18:00")) 8 = 0 := by
  refine ⟨by decide, by decide, by decide, by decide, ?_, by decide, by decide⟩
  exact (calculateNightOvertime_formula ("20:00") ("23:00") 8
    (by decide) (by decide) (by decide) (by decide)).1

/-- Claim C3: for present clock times, `calculateWorkTime` is
`end − start − breaks` where the break total sums `end − start` over
exactly the break pairs with both ends present; absent clock times give 0;
the result is not clamped, so a break total exceeding the shift span
yields a negative value. -/
theorem calculateWorkTime_formula (s e : String) (p : WorkPattern)
    (hs : s ≠ "") (he : e ≠ "") :
    calculateWorkTime (some s) (some e) p =
      timeToMinutes (some e) - timeToMinutes (some s) -
        calculateBreakTime p ∧
    calculateBreakTime p =
      (if truthyStr p.break1_start = true ∧ truthyStr p.break1_end = true
       then timeToMinutes p.break1_end - timeToMinutes p.break1_start
       else 0) +
      (if truthyStr p.break2_start = true ∧ truthyStr p.break2_end = true
       then timeToMinutes p.break2_end - timeToMinutes p.break2_start
       else 0) +
      (if truthyStr p.break3_start = true ∧ truthyStr p.break3_end = true
       then timeToMinutes p.break3_end - timeToMinutes p.break3_start
       else 0) ∧
    (∀ a b : Option String, truthyStr a = false ∨ truthyStr b = false →
      calculateWorkTime a b p = 0) ∧
    (timeToMinutes (some e) - timeToMinutes (some s) <
        calculateBreakTime p →
      calculateWorkTime (some s) (some e) p < 0) := by
  have hcond : ¬ (truthyStr (some s) = false ∨
      truthyStr (some e) = false) := by
    simp [truthyStr, hs, he]
  have hmain : calculateWorkTime (some s) (some e) p =
      timeToMinutes (some e) - timeToMinutes (some s) -
        calculateBreakTime p := by
    rw [calculateWorkTime, if_neg hcond]
  refine ⟨hmain, ?_, ?_, ?_⟩
  · simp only [calculateBreakTime, breakPairs, List.foldl_cons,
      List.foldl_nil]
    split_ifs <;> ring
  · intro a b habs
    rw [calculateWorkTime, if_pos habs]
  · intro hbig
    rw [hmain]
    omega

theorem calculateWorkTime_formula_witness :
    ("09:00" ≠ ("" : String)) ∧ ("18:00" ≠ ("" : String)) ∧
    calculateWorkTime (some ("09:00")) (some ("18:00"))
      (getPatternFromSettings none 1) =
      timeToMinutes (some ("18:00")) - timeToMinutes (some ("09:00")) -
        calculateBreakTime (getPatternFromSettings none 1) ∧
    calculateWorkTime (some ("09:00")) (some ("18:00"))
      (getPatternFromSettings none 1) = 480 := by
  refine ⟨by decide, by decide, ?_, by decide⟩
  exact (calculateWorkTime_formula ("09:00") ("18:00")
    (getPatternFromSettings none 1) (by decide) (by decide)).1

theorem workDays_foldl (settings : Option MonthlySettings)
    (records : List DailyRecord) (acc : MonthlySummary) :
    (records.foldl (summaryStep settings) acc).workDays =
      acc.workDays + (records.filter countsAsWorkDay).length := by
  induction records generalizing acc with
  | nil => simp
  | cons r rs ih =>
    rw [List.foldl_cons, ih]
    by_cases h : countsAsWorkDay r = true
    · simp [List.filter_cons, h, summaryStep]
      omega
    · simp [List.filter_cons, h, summaryStep]

/-- Claim C7 fails on the code: a record whose `work_type` is absent but
whose clock times are both present is not counted by the summary's
`workDays`, although it is not of a holiday type. -/
theorem workDays_counterexample :
    (calculateMonthlySummary [recordWithoutWorkType] none).workDays = 0 ∧
    ([recordWithoutWorkType].filter (fun r =>
      decide (r.work_type ≠ some ("legal-holiday")) &&
      decide (r.work_type ≠ some ("extra-holiday")) &&
      truthyStr r.start_time && truthyStr r.end_time)).length = 1 := by
  exact ⟨rfl, rfl⟩

/-- Claim C7 amended: `workDays` counts the records whose `work_type` is
present (truthy) and not a holiday type and whose two clock times are both
present. -/
theorem workDays_count (records : List DailyRecord)
    (settings : Option MonthlySettings) :
    (calculateMonthlySummary records settings).workDays =
      (records.filter (fun r =>
        truthyStr r.work_type &&
        decide (r.work_type ≠ some ("legal-holiday")) &&
        decide (r.work_type ≠ some ("extra-holiday")) &&
        truthyStr r.start_time && truthyStr r.end_time)).length := by
  have hfun : countsAsWorkDay = (fun r =>
      truthyStr r.work_type &&
      decide (r.work_type ≠ some ("legal-holiday")) &&
      decide (r.work_type ≠ some ("extra-holiday")) &&
      truthyStr r.start_time && truthyStr r.end_time) := by
    funext r; rfl
  rw [calculateMonthlySummary, workDays_foldl, hfun]
  simp [MonthlySummary.init]

/-- Claim C9: `generateCSV` produces the fixed 11-column header followed
by exactly `getDaysInMonth year month` rows in ascending day order, one
per calendar day (an absent day rendered from the empty record); minute
fields render as `<n>分` when non-zero and empty otherwise, and the note
cell is always double-quoted with internal double quotes doubled. -/
theorem generateCSV_structure (records : List DailyRecord)
    (settings : Option MonthlySettings) (year month : Nat) :
    (generateCSVRows records settings year month).length =
      getDaysInMonth year month + 1 ∧
    (generateCSVRows records settings year month).get? 0 =
      some (String.intercalate (",") csvHeaders) ∧
    ∀ day record, 1 ≤ day → day ≤ getDaysInMonth year month →
      record = (recordForDay records day).getD DailyRecord.empty →
      (generateCSVRows records settings year month).get? day =
        some (String.intercalate (",")
          [jsStrNat year ++ "/" ++ jsStrNat month ++ "/" ++ jsStrNat day,
           getDayOfWeek year month day,
           getWorkTypeLabel record.work_type,
           jsOrStr record.start_time (""),
           jsOrStr record.end_time (""),
           (match record.late_time with
            | none => ""
            | some v => if v = 0 then "" else jsStrInt v ++ "分"),
           (match record.early_leave_time with
            | none => ""
            | some v => if v = 0 then "" else jsStrInt v ++ "分"),
           (match record.overtime with
            | none => ""
            | some v => if v = 0 then "" else jsStrInt v ++ "分"),
           (match record.night_overtime with
            | none => ""
            | some v => if v = 0 then "" else jsStrInt v ++ "分"),
           getLeaveTypeLabel record.leave_type,
           "\"" ++ doubleQuotes (jsOrStr record.note ("")) ++ "\""]) := by
  refine ⟨?_, rfl, ?_⟩
  · simp [generateCSVRows]
  · intro day record h1 h2 hrec
    subst hrec
    obtain ⟨i, rfl⟩ : ∃ i, day = i + 1 := ⟨day - 1, by omega⟩
    rw [generateCSVRows, List.get?_cons_succ, List.get?_map,
      List.get?_range' 1 1 (show i < getDaysInMonth year month by omega)]
    have hday : 1 + 1 * i = i + 1 := by omega
    rw [hday]
    rfl

theorem generateCSV_structure_witness :
    (generateCSVRows [] none 2023 2).length = getDaysInMonth 2023 2 + 1 ∧
    1 ≤ getDaysInMonth 2023 2 ∧
    (generateCSVRows [] none 2023 2).get? 1 =
      some ("2023/2/1,水,,,,,,,,,\"\"") := by
  refine ⟨(generateCSV_structure [] none 2023 2).1, by decide, ?_⟩
  have h := (generateCSV_structure [] none 2023 2).2.2 1 DailyRecord.empty
    (le_refl 1) (by decide) rfl
  rw [h]
  decide

theorem digitVal_digitChar : ∀ d, d < 10 → digitVal (Nat.digitChar d) = d := by
  decide

theorem digitChar_ne_colon : ∀ d, d < 10 → Nat.digitChar d ≠ ':' := by
  decide

theorem natToCharsAux_ne_colon :
    ∀ (fuel n : Nat), ∀ c ∈ natToCharsAux fuel n, c ≠ ':' := by
  intro fuel
  induction fuel with
  | zero => intro n c hc; simp [natToCharsAux] at hc
  | succ fuel ih =>
    intro n c hc
    rw [natToCharsAux] at hc
    by_cases h : n < 10
    · rw [if_pos h] at hc
      rcases List.mem_singleton.mp hc with rfl
      exact digitChar_ne_colon n h
    · rw [if_neg h] at hc
      rcases List.mem_append.mp hc with h1 | h1
      · exact ih (n / 10) c h1
      · rcases List.mem_singleton.mp h1 with rfl
        exact digitChar_ne_colon _ (Nat.mod_lt n (by omega))

theorem natToChars_ne_colon (n : Nat) : ':' ∉ natToChars n := by
  intro hmem
  exact natToCharsAux_ne_colon (n + 1) n ':' hmem rfl

theorem natToCharsAux_ne_nil (fuel n : Nat) (h : fuel ≠ 0) :
    natToCharsAux fuel n ≠ [] := by
  cases fuel with
  | zero => exact absurd rfl h
  | succ fuel =>
    rw [natToCharsAux]
    by_cases h10 : n < 10
    · simp [h10]
    · simp [h10]

theorem natToChars_ne_nil (n : Nat) : natToChars n ≠ [] :=
  natToCharsAux_ne_nil (n + 1) n (by omega)

theorem decArabic_snoc (l : List Char) (c : Char) :
    decArabic (l ++ [c]) = decArabic l * 10 + digitVal c := by
  simp [decArabic, List.foldl_append]

theorem decArabic_natToCharsAux :
    ∀ (fuel n : Nat), n < fuel → decArabic (natToCharsAux fuel n) = n := by
  intro fuel
  induction fuel with
  | zero => intro n h; omega
  | succ fuel ih =>
    intro n h
    rw [natToCharsAux]
    by_cases h10 : n < 10
    · rw [if_pos h10]
      simp [decArabic, digitVal_digitChar n h10]
    · rw [if_neg h10]
      rw [decArabic_snoc, ih (n / 10) (by omega),
        digitVal_digitChar _ (Nat.mod_lt n (by omega))]
      omega

theorem decArabic_natToChars (n : Nat) : decArabic (natToChars n) = n :=
  decArabic_natToCharsAux (n + 1) n (by omega)

theorem decArabic_replicate_zero (k : Nat) (l : List Char) :
    decArabic (List.replicate k '0' ++ l) = decArabic l := by
  induction k with
  | zero => simp
  | succ k ih =>
    rw [List.replicate_succ, List.cons_append]
    show List.foldl _ (0 * 10 + digitVal '0') _ = _
    have h0 : 0 * 10 + digitVal '0' = 0 := rfl
    rw [h0]
    exact ih

theorem decArabic_padStart2 (l : List Char) :
    decArabic (padStart2 l) = decArabic l := by
  rw [padStart2]
  by_cases h : l.length < 2
  · rw [if_pos h, decArabic_replicate_zero]
  · rw [if_neg h]

theorem padStart2_ne_colon (l : List Char) (h : ':' ∉ l) :
    ':' ∉ padStart2 l := by
  rw [padStart2]
  by_cases hl : l.length < 2
  · rw [if_pos hl]
    intro hmem
    rcases List.mem_append.mp hmem with h1 | h1
    · have := List.eq_of_mem_replicate h1
      simp at this
    · exact h h1
  · rw [if_neg hl]; exact h

theorem splitOnChar_not_mem (c : Char) (l : List Char) (h : c ∉ l) :
    splitOnChar c l = [l] := by
  induction l with
  | nil => rfl
  | cons x xs ih =>
    have hx : ¬ x = c := fun hc => h (hc ▸ List.mem_cons_self x xs)
    have hxs : c ∉ xs := fun hc => h (List.mem_cons_of_mem x hc)
    rw [splitOnChar]
    simp only [if_neg hx, ih hxs]

theorem splitOnChar_append (c : Char) (a b : List Char) (ha : c ∉ a) :
    splitOnChar c (a ++ c :: b) = a :: splitOnChar c b := by
  induction a with
  | nil =>
    rw [List.nil_append, splitOnChar]
    simp
  | cons x xs ih =>
    have hx : ¬ x = c := fun hc => ha (hc ▸ List.mem_cons_self x xs)
    have hxs : c ∉ xs := fun hc => ha (List.mem_cons_of_mem x hc)
    rw [List.cons_append, splitOnChar]
    simp only [if_neg hx, ih hxs]

/-- Claim C10: formatting a non-negative minute count with
`minutesToTimeString` and parsing it back with `timeToMinutes` is the
identity. -/
theorem timeToMinutes_minutesToTimeString (m : Nat) :
    timeToMinutes (some (minutesToTimeString (m : Int))) = (m : Int) := by
  have hm : ¬ ((m : Int) < 0) := by omega
  have hh : ((m : Int) / 60).toNat = m / 60 := by omega
  have hmod : ((m : Int) % 60).toNat = m % 60 := by omega
  simp only [minutesToTimeString, if_neg hm, hh, hmod]
  set A := natToChars (m / 60) with hA
  set B := padStart2 (natToChars (m % 60)) with hB
  have hAcolon : ':' ∉ A := hA ▸ natToChars_ne_colon (m / 60)
  have hBcolon : ':' ∉ B :=
    hB ▸ padStart2_ne_colon _ (natToChars_ne_colon (m % 60))
  have hdata : (String.mk (A ++ ':' :: B)).data = A ++ ':' :: B := rfl
  have hne : ¬ (String.mk (A ++ ':' :: B) = "") := by
    intro hcon
    have := congrArg String.data hcon
    rw [hdata] at this
    simp at this
  rw [timeToMinutes]
  simp only [if_neg hne]
  rw [splitOnChar_append ':' A B hAcolon,
    splitOnChar_not_mem ':' B hBcolon]
  simp only [List.getD, List.get?_cons_zero, List.get?_cons_succ,
    Option.getD_some, jsNumber]
  rw [hB, decArabic_padStart2, decArabic_natToChars, decArabic_natToChars]
  omega
